import Mathlib

/-!
# Verification of the deepview-mcp authorization-and-dispatch gateway

Shallow embedding of `src/deepview_mcp/server.py` (and its startup driver
`src/deepview_mcp/cli.py`).  Pure logic is translated to Lean functions;
the process-wide mutable `codebase_content` global becomes explicit state
passing; Python exceptions become `Except`; the file system, the JWT
validation library and the Gemini query bridge are passed in as explicit
parameters (they are external collaborators of the code under test).

Python truthiness on optional strings (`if project_name:`, `if filename:`,
`if codebase_file:`) is modelled by `optTruthy`: a value is truthy exactly
when it is present and non-empty.
-/

namespace DeepView

/-- A tiny JSON value model: the shapes `JSONResponse` serialises. -/
inductive Json where
  | null
  | bool (b : Bool)
  | num (n : Int)
  | str (s : String)
  | arr (xs : List Json)
  | obj (fields : List (String × Json))

/-- Field lookup on a JSON object (`none` on non-objects or missing keys). -/
def Json.lookup : Json → String → Option Json
  | .obj fs, k => fs.lookup k
  | _, _ => none

/-- Python truthiness of an optional string: present and non-empty. -/
def optTruthy : Option String → Bool
  | none => false
  | some s => s ≠ ""

/-- Python `repr`-in-f-string of an optional string as the dispatcher prints it
in `f"Unknown method: {method}"` (absent → `None`). -/
def pyOptShow : Option String → String
  | none => "None"
  | some s => s

/-- Python `str.lower()` (ASCII range, which covers auth schemes). -/
def pyLower (s : String) : String := String.mk (s.data.map Char.toLower)

/-- Python `s.endswith("/")`, expressed as a last-character test. -/
def endsWithSlash (s : String) : Bool := s.data.getLast? = some '/'

/-- Insert a string into a `≤`-sorted list, keeping it sorted. -/
def insertSorted (x : String) : List String → List String
  | [] => [x]
  | y :: ys => if x ≤ y then x :: y :: ys else y :: insertSorted x ys

/-- Python `sorted(...)` on a list of strings (insertion sort). -/
def insertionSort (l : List String) : List String := l.foldr insertSorted []

/-- Python `f"{possible_paths}"` rendering of a list of strings. -/
def pyStrListRepr (xs : List String) : String :=
  "[" ++ String.intercalate ", " (xs.map (fun s => "'" ++ s ++ "'")) ++ "]"

/-! ## `os.path` fragments (posixpath)

`os.path.basename(p)` returns everything after the last `/`;
`os.path.dirname(p)` returns everything up to the last `/`, with trailing
slashes stripped unless the head is empty or all slashes. -/

/-- `os.path.basename` on POSIX: the suffix after the last slash. -/
def pyBasename (s : String) : String :=
  String.mk ((s.data.reverse.takeWhile (fun c => c ≠ '/')).reverse)

/-- `os.path.dirname` on POSIX: the prefix up to the last slash, with
trailing slashes stripped when the head is non-empty and not all slashes. -/
def pyDirname (s : String) : String :=
  let head := (s.data.reverse.dropWhile (fun c => c ≠ '/')).reverse
  if head ≠ [] ∧ ¬ (head.all (fun c => c = '/')) then
    String.mk ((head.reverse.dropWhile (fun c => c = '/')).reverse)
  else
    String.mk head

/-- `os.path.basename(os.path.dirname(codebase_file))`: how the `deepview`
tool derives a project name from a `codebase_file` argument
(`server.py` line 340). -/
def derivedProjectName (codebaseFile : String) : String :=
  pyBasename (pyDirname codebaseFile)

/-! ## File-system model

The file system is a pair of oracles: `ex : String → Bool` (`os.path.exists`)
and `content : String → String` (the text `open(path).read()` returns).
All resolver functions below are read-only in this model, as in the code. -/

/-- The candidate list tried by `load_codebase_from_file`
(`server.py` lines 36–41): the literal path plus three
deployment-root-relative variants, in this fixed order. -/
def possiblePaths (filePath : String) : List String :=
  [filePath, "/app/" ++ filePath, "./codebase/" ++ filePath,
   "/app/codebase/" ++ filePath]

/-- `load_codebase_from_file` (`server.py` lines 21–62): read the first
existing candidate path; if no candidate exists, or the first existing file
reads back empty, raise `FileNotFoundError` naming every candidate.
The global `codebase_content` is threaded as `st`; it is reassigned only
when `updateGlobal` is true and the load succeeds. -/
def load_codebase_from_file (ex : String → Bool) (content : String → String)
    (filePath : String) (updateGlobal : Bool) (st : String) :
    Except String String × String :=
  let c : String :=
    match (possiblePaths filePath).find? ex with
    | some p => content p
    | none => ""
  if c = "" then
    (.error ("Codebase file not found at any of these paths: " ++
      pyStrListRepr (possiblePaths filePath)), st)
  else
    (.ok c, if updateGlobal then c else st)

/-- Search directories of `find_codebase_file` (`server.py` lines 175–179). -/
def searchPaths (projectPath : String) : List String :=
  ["/app/codebase/" ++ projectPath, "./codebase/" ++ projectPath,
   "codebase/" ++ projectPath]

/-- Candidate filenames of `find_codebase_file` (`server.py` lines 181–183):
the hint first when truthy, then the fixed defaults in order. -/
def candidateFilenames (filename : Option String) : List String :=
  let defaults := ["codebase.xml", "codebase.txt", "codebase.md", "codebase.json"]
  if optTruthy filename then filename.getD "" :: defaults else defaults

/-- Inner loop of `find_codebase_file`: first existing candidate filename
inside one search directory. -/
def findInDir (ex : String → Bool) (dir : String) (fnames : List String) :
    Option String :=
  (fnames.map (fun fn => dir ++ "/" ++ fn)).find? ex

/-- `find_codebase_file` (`server.py` lines 173–192): directory-major nested
loop over search paths and candidate filenames, returning the first existing
full path, else raising `FileNotFoundError`. -/
def find_codebase_file (ex : String → Bool) (projectPath : String)
    (filename : Option String) : Except String String :=
  match (searchPaths projectPath).findSome?
      (fun sp => findInDir ex sp (candidateFilenames filename)) with
  | some p => .ok p
  | none => .error ("No codebase file found in project: " ++ projectPath)

/-! ## Authorization middleware

`_decode_and_validate` calls into the external PyJWT library, so its outcome
is passed in as `validate : String → Except String TokenClaims`, mapping a
raw token to either validated claims or the `str(e)` of the underlying
validation exception (bad signature, expiry, wrong issuer/audience,
malformed token, unknown key id, ...). -/

/-- The claims a request handler observes from a validated token.
`scopeSet` stands for `_token_scopes_set(claims)`: the union of the
space-delimited `scope` claim and the list-valued `scopes` claim;
the claims of interest quantify over this set directly. -/
structure TokenClaims where
  sub : String
  scopeSet : Finset String
deriving DecidableEq

/-- The anonymous claim set `{"sub": "anonymous"}` used when enforcement is
disabled. -/
def anonymousClaims : TokenClaims := ⟨"anonymous", ∅⟩

/-- `fastapi.HTTPException`: an HTTP status code plus a `detail` payload that
FastAPI serialises into the response body sent to the caller. -/
structure HttpError where
  status : Nat
  detail : String
deriving DecidableEq

/-- `HTTPAuthorizationCredentials`: the parsed `Authorization` header. -/
structure Credentials where
  scheme : String
  credentials : String

/-- The per-project scope string `f"deepview:project:{project_name}:read"`
(`server.py` line 146). -/
def projectScope (projectName : String) : String :=
  "deepview:project:" ++ projectName ++ ":read"

/-- `_has_required_scopes` (`server.py` lines 141–150).
`REQUIRED_SCOPES_STATIC` is a Python set, modelled as the list of its
distinct elements: truthiness is non-emptiness and `issubset` is
element-wise membership in the token's scope set.  `projectName` is
`Optional[str]`; Python truthiness treats `None` and `""` alike. -/
def _has_required_scopes (requiredScopesStatic : List String)
    (tokenScopes : Finset String) (projectName : Option String) : Bool :=
  if requiredScopesStatic ≠ [] ∧
      ∀ s ∈ requiredScopesStatic, s ∈ tokenScopes then
    true
  else if optTruthy projectName ∧
      projectScope (projectName.getD "") ∈ tokenScopes then
    true
  else
    requiredScopesStatic = [] ∧ ¬ optTruthy projectName

/-- `get_current_token_claims` (`server.py` lines 152–162): short-circuit to
anonymous claims when enforcement is off; 401 on a missing/empty credential
or a non-Bearer scheme; otherwise validate, turning any validation failure
into a 401 whose `detail` embeds the exception text. -/
def get_current_token_claims (oauthEnabled : Bool)
    (credentials : Option Credentials)
    (validate : String → Except String TokenClaims) :
    Except HttpError TokenClaims :=
  if ¬ oauthEnabled then
    .ok anonymousClaims
  else
    match credentials with
    | none => .error ⟨401, "Missing or invalid Authorization header"⟩
    | some c =>
      if c.scheme = "" ∨ c.credentials = "" then
        .error ⟨401, "Missing or invalid Authorization header"⟩
      else if pyLower c.scheme ≠ "bearer" then
        .error ⟨401, "Authorization scheme must be Bearer"⟩
      else
        match validate c.credentials with
        | .ok claims => .ok claims
        | .error e => .error ⟨401, "Invalid token: " ++ e⟩

/-- `require_project_scope` (`server.py` lines 164–171): resolve claims, and
when enforcement is on, fail 403 unless `_has_required_scopes` accepts the
token's scope set for the project. -/
def require_project_scope (oauthEnabled : Bool)
    (requiredScopesStatic : List String) (projectName : String)
    (credentials : Option Credentials)
    (validate : String → Except String TokenClaims) :
    Except HttpError TokenClaims := do
  let claims ← get_current_token_claims oauthEnabled credentials validate
  if ¬ oauthEnabled then
    return claims
  else if ¬ _has_required_scopes requiredScopesStatic claims.scopeSet
      (some projectName) then
    .error ⟨403, "Insufficient scope for this project"⟩
  else
    return claims

/-! ## Protocol dispatcher (`mcp_endpoint`, `server.py` lines 257–437)

The endpoint's environment bundles startup configuration with its external
collaborators: the file system, the `os.walk` scan backing
`list_codebase_files`, the `analyze_with_gemini` query bridge, and Python's
`str()` of a caught `HTTPException` (used by the outer `except` handler). -/

structure Env where
  oauthEnabled : Bool
  requiredScopesStatic : List String
  fsExists : String → Bool
  fileContent : String → String
  /-- relative paths with recognized extensions collected by the `os.walk`
  loop of `list_codebase_files` (external directory scan) -/
  walkFiles : List String
  /-- `analyze_with_gemini project question corpus` (external query bridge) -/
  answer : String → String → String → String
  /-- Python `str()` of a caught `HTTPException` with given status, detail -/
  excStr : Nat → String → String

/-- An inbound JSON-RPC request as `mcp_endpoint` reads it out of the parsed
body: `body.get("method")`, `params.get("name")`, the two `deepview`
arguments, and `body.get("id")` (`Json.null` when absent, as Python's
`None`). -/
structure RpcRequest where
  method : Option String
  toolName : Option String
  question : Option String
  codebaseFile : Option String
  id : Json

/-- A JSON-RPC success envelope `{"jsonrpc": "2.0", "id": ..., "result": ...}`. -/
def rpcResult (id : Json) (result : Json) : Json :=
  .obj [("jsonrpc", .str "2.0"), ("id", id), ("result", result)]

/-- A JSON-RPC error envelope with `code`, `message`, `data`. -/
def rpcError (id : Json) (code : Int) (message : String) (data : String) : Json :=
  .obj [("jsonrpc", .str "2.0"), ("id", id),
    ("error", .obj [("code", .num code), ("message", .str message),
      ("data", .str data)])]

/-- A single text content block `{"content": [{"type": "text", "text": ...}]}`. -/
def textContent (text : String) : Json :=
  .obj [("content", .arr [.obj [("type", .str "text"), ("text", .str text)]])]

/-- The `initialize` result (`server.py` lines 280–289). -/
def initializeResult : Json :=
  .obj [("protocolVersion", .str "2024-11-05"),
    ("capabilities", .obj [("tools", .obj [])]),
    ("serverInfo", .obj [("name", .str "deepview-mcp"),
      ("version", .str "1.0.0")])]

/-- The static `tools/list` catalog (`server.py` lines 298–322). -/
def toolsListResult : Json :=
  .obj [("tools", .arr [
    .obj [("name", .str "deepview"),
      ("description", .str "Analyze codebase content with AI"),
      ("inputSchema", .obj [("type", .str "object"),
        ("properties", .obj [
          ("question", .obj [("type", .str "string"),
            ("description", .str "Question about the codebase")]),
          ("codebase_file", .obj [("type", .str "string"),
            ("description", .str "Optional codebase file path")])]),
        ("required", .arr [.str "question"])])],
    .obj [("name", .str "list_codebase_files"),
      ("description", .str "List available codebase files"),
      ("inputSchema", .obj [("type", .str "object"),
        ("properties", .obj [])])]])]

/-- An HTTP response: JSON body plus status code. -/
structure HttpResponse where
  body : Json
  status : Nat

/-- The `tools/call name="deepview"` branch (`server.py` lines 329–383),
after the truthy-`question` gate: load the corpus (from the argument, with
`update_global=False`, or from the process-wide default `st`), 404 on empty
content, per-project scope check when OAuth is enabled, otherwise answer via
the query bridge; a load failure surfaces as JSON-RPC `-32603`/HTTP 500. -/
def deepviewTool (env : Env) (claims : TokenClaims) (req : RpcRequest)
    (st : String) : HttpResponse :=
  let loaded : Except String (String × String) :=
    if optTruthy req.codebaseFile then
      let file := req.codebaseFile.getD ""
      match (load_codebase_from_file env.fsExists env.fileContent file
          false st).1 with
      | .ok c => .ok (c, derivedProjectName file)
      | .error e => .error e
    else
      .ok (st, "default")
  match loaded with
  | .error e => ⟨rpcError req.id (-32603) "Internal error" e, 500⟩
  | .ok (localCodebase, projectName) =>
    if localCodebase = "" then
      ⟨.obj [("error", .str "No codebase content available")], 404⟩
    else if env.oauthEnabled ∧
        ¬ _has_required_scopes env.requiredScopesStatic claims.scopeSet
          (some projectName) then
      ⟨.obj [("error", .str "Insufficient scope for this project")], 403⟩
    else
      ⟨rpcResult req.id (textContent
        (env.answer projectName (req.question.getD "") localCodebase)), 200⟩

/-- The `tools/call name="list_codebase_files"` branch
(`server.py` lines 385–409): join the walked relative paths, or the fixed
"No codebase files found" message when the scan found nothing. -/
def listCodebaseFilesTool (env : Env) (req : RpcRequest) : HttpResponse :=
  let text :=
    if env.walkFiles ≠ [] then
      "Available codebase files:\n" ++ String.intercalate "\n" env.walkFiles
    else
      "No codebase files found"
  ⟨rpcResult req.id (textContent text), 200⟩

/-- Method dispatch of `mcp_endpoint` (`server.py` lines 276–433): the code
that runs once claims are resolved.  A `tools/call` with an unrecognized
tool name falls through to the same unknown-method error block, as in the
source.  The process-wide `codebase_content` global is threaded as `st` and
returned; no branch reassigns it (every per-request load passes
`update_global=False`). -/
def dispatch (env : Env) (claims : TokenClaims) (req : RpcRequest)
    (st : String) : HttpResponse × String :=
  if req.method = some "initialize" then
    (⟨rpcResult req.id initializeResult, 200⟩, st)
  else if req.method = some "notifications/initialized" then
    (⟨.obj [], 200⟩, st)
  else if req.method = some "tools/list" then
    (⟨rpcResult req.id toolsListResult, 200⟩, st)
  else if req.method = some "tools/call" ∧ req.toolName = some "deepview" then
    if ¬ optTruthy req.question then
      (⟨.obj [("error", .str "Question is required")], 400⟩, st)
    else
      (deepviewTool env claims req st, st)
  else if req.method = some "tools/call" ∧
      req.toolName = some "list_codebase_files" then
    (listCodebaseFilesTool env req, st)
  else
    (⟨rpcError req.id (-32601) "Method not found"
      ("Unknown method: " ++ pyOptShow req.method), 400⟩, st)

/-- `mcp_endpoint` (`server.py` lines 257–437): resolve claims
(`get_current_token_claims` when OAuth is enabled, anonymous otherwise),
then dispatch.  An `HTTPException` raised during claims resolution is caught
by the function's outer `except` handler, which answers
`{"error": str(e)}` with status 500. -/
def mcp_endpoint (env : Env) (credentials : Option Credentials)
    (validate : String → Except String TokenClaims) (req : RpcRequest)
    (st : String) : HttpResponse × String :=
  let claimsResult : Except HttpError TokenClaims :=
    if env.oauthEnabled then
      get_current_token_claims true credentials validate
    else
      .ok anonymousClaims
  match claimsResult with
  | .error e =>
    (⟨.obj [("error", .str (env.excStr e.status e.detail))], 500⟩, st)
  | .ok claims => dispatch env claims req st

/-! ## Startup configuration and the discovery document -/

/-- The OAuth-relevant part of `create_http_server`'s environment-sourced
configuration, before startup validation. -/
structure OAuthSettings where
  oauthEnabled : Bool
  oidcIssuer : Option String
  oidcAudience : Option String

/-- Append a trailing slash unless one is already present. -/
def ensureTrailingSlash (s : String) : String :=
  if endsWithSlash s then s else s ++ "/"

/-- Startup validation and normalization of the OAuth settings
(`server.py` lines 94–99): when enforcement is enabled, issuer and audience
must be set (truthy) — otherwise startup fails — and the issuer is
normalized to end in a slash.  When enforcement is disabled the settings
pass through untouched. -/
def startupOAuthSettings (s : OAuthSettings) : Except String OAuthSettings :=
  if s.oauthEnabled then
    if ¬ optTruthy s.oidcIssuer ∨ ¬ optTruthy s.oidcAudience then
      .error "OIDC_ISSUER and OIDC_AUDIENCE must be set when OAUTH_ENABLED=true"
    else
      .ok { s with oidcIssuer := some (ensureTrailingSlash (s.oidcIssuer.getD "")) }
  else
    .ok s

/-- The `authorization` value of the discovery document
(`server.py` lines 492–501): built whenever `OIDC_ISSUER` is truthy —
independently of `OAUTH_ENABLED` — and `None` (JSON null) otherwise. -/
def discoveryAuthorization (oidcIssuer : Option String)
    (oidcAudience : Option String) (requiredScopesStatic : List String) :
    Json :=
  if optTruthy oidcIssuer then
    let issuer := ensureTrailingSlash (oidcIssuer.getD "")
    .obj [("type", .str "oauth2"), ("issuer", .str issuer),
      ("authorization_endpoint", .str (issuer ++ "authorize")),
      ("token_endpoint", .str (issuer ++ "oauth/token")),
      ("audience", match oidcAudience with | some a => .str a | none => .null),
      ("scopes", .arr (if requiredScopesStatic ≠ [] then
        (insertionSort requiredScopesStatic).map .str else []))]
  else
    .null

/-- `mcp_discovery` (`server.py` lines 483–517): the
`/.well-known/mcp.json` document.  `base` is the scheme-and-host prefix
derived from the proxy-aware headers (plumbing outside the claims here). -/
def mcp_discovery (oidcIssuer : Option String) (oidcAudience : Option String)
    (requiredScopesStatic : List String) (base : String) : Json :=
  .obj [("name", .str "deepview-mcp"), ("version", .str "1.0.0"),
    ("description", .str "DeepView MCP Server for codebase analysis"),
    ("endpoint", .str (base ++ "/deepview-mcp/mcp")),
    ("capabilities", .arr [.str "tools"]),
    ("authorization",
      discoveryAuthorization oidcIssuer oidcAudience requiredScopesStatic)]

/-! ## Shared lemmas -/

/-- A nested first-match search (first directory whose inner filename scan
hits) equals the first match over the flattened cross product, in the same
traversal order. -/
theorem findSome?_find?_flatMap {α β : Type} (p : β → Bool) (f : α → List β)
    (ds : List α) :
    ds.findSome? (fun d => (f d).find? p) = (ds.flatMap f).find? p := by
  rw [List.flatMap_def, List.find?_flatten, List.findSome?_map]
  rfl

/-! ## C5 — resolver traversal order -/

/-- C5: `find_codebase_file` iterates the three candidate directories in
fixed order and, within each, the hint (when truthy) followed by
`codebase.xml`, `codebase.txt`, `codebase.md`, `codebase.json`; it returns
the first existing file of that directory-major cross-product traversal,
and fails NotFound exactly when no candidate exists.  Determinism is
inherent: the resolver is a function of the file-system layout. -/
theorem find_codebase_file_traversal (ex : String → Bool) (project : String)
    (hint : Option String) :
    (find_codebase_file ex project hint =
      match ((searchPaths project).flatMap
          (fun dir => (candidateFilenames hint).map
            (fun fn => dir ++ "/" ++ fn))).find? ex with
      | some f => .ok f
      | none => .error ("No codebase file found in project: " ++ project)) ∧
    (find_codebase_file ex project hint =
        .error ("No codebase file found in project: " ++ project) ↔
      ∀ c ∈ (searchPaths project).flatMap
          (fun dir => (candidateFilenames hint).map
            (fun fn => dir ++ "/" ++ fn)), ex c = false) := by
  have key : find_codebase_file ex project hint =
      match ((searchPaths project).flatMap
          (fun dir => (candidateFilenames hint).map
            (fun fn => dir ++ "/" ++ fn))).find? ex with
      | some f => .ok f
      | none => .error ("No codebase file found in project: " ++ project) := by
    unfold find_codebase_file findInDir
    rw [findSome?_find?_flatMap]
  refine ⟨key, ?_⟩
  rw [key]
  cases hfind : ((searchPaths project).flatMap
      (fun dir => (candidateFilenames hint).map
        (fun fn => dir ++ "/" ++ fn))).find? ex with
  | none =>
    constructor
    · intro _
      simpa using List.find?_eq_none.mp hfind
    · intro _
      rfl
  | some f =>
    constructor
    · intro h
      exact Except.noConfusion h
    · intro hall
      have hmem := List.mem_of_find?_eq_some hfind
      have hex := List.find?_some hfind
      rw [hall f hmem] at hex
      cases hex

/-! ## C10 — loader stops at first existing candidate -/

/-- C10: `load_codebase_from_file` stops at the first of the four candidate
paths (the literal path, then `/app/`, `./codebase/`, `/app/codebase/`
variants) that exists; when that first existing file's content is empty, it
raises `FileNotFoundError` listing all candidate paths — even when a later
candidate exists with non-empty content — and does not touch the global. -/
theorem load_codebase_first_existing_empty_fails (ex : String → Bool)
    (content : String → String) (filePath p q : String) (updateGlobal : Bool)
    (st : String)
    (hfirst : (possiblePaths filePath).find? ex = some p)
    (hempty : content p = "")
    (_hq : q ∈ possiblePaths filePath) (_hqex : ex q = true)
    (_hqcontent : content q ≠ "") :
    load_codebase_from_file ex content filePath updateGlobal st =
      (.error ("Codebase file not found at any of these paths: " ++
        pyStrListRepr (possiblePaths filePath)), st) := by
  unfold load_codebase_from_file
  rw [hfirst]
  simp [hempty]

/-- C10 witness: `cb.txt` and `/app/codebase/cb.txt` both exist; the first
candidate `cb.txt` is empty while `/app/codebase/cb.txt` has content, yet
the loader fails with the full candidate list. -/
theorem load_codebase_first_existing_empty_fails_witness :
    load_codebase_from_file
        (fun s => s = "cb.txt" || s = "/app/codebase/cb.txt")
        (fun s => if s = "/app/codebase/cb.txt" then "x" else "")
        "cb.txt" true "prev" =
      (.error ("Codebase file not found at any of these paths: " ++
        pyStrListRepr (possiblePaths "cb.txt")), "prev") :=
  load_codebase_first_existing_empty_fails
    (fun s => s = "cb.txt" || s = "/app/codebase/cb.txt")
    (fun s => if s = "/app/codebase/cb.txt" then "x" else "")
    "cb.txt" "cb.txt" "/app/codebase/cb.txt" true "prev"
    (by decide) (by decide) (by decide) (by decide) (by decide)

/-! ## C7 — bare codebase_file yields the empty project name -/

/-- C7: a `codebase_file` argument with no directory separator derives the
empty project name (`basename(dirname(f)) = ""`), and then — with no static
required scopes configured — the per-project scope check accepts any
validated token's scope set, whatever project directory the resolver loads
from. -/
theorem bare_filename_empty_project_passes_scope (s : String)
    (S : Finset String) (h : '/' ∉ s.data) :
    derivedProjectName s = "" ∧
    _has_required_scopes [] S (some (derivedProjectName s)) = true := by
  have hdrop : s.data.reverse.dropWhile (fun c => c ≠ '/') = [] := by
    rw [List.dropWhile_eq_nil_iff]
    intro x hx
    have : x ∈ s.data := List.mem_reverse.mp hx
    simp only [decide_eq_true_eq]
    intro hslash
    exact h (hslash ▸ this)
  have hd : pyDirname s = "" := by
    simp only [ne_eq, decide_not] at hdrop
    simp [pyDirname, hdrop]
  have hb : derivedProjectName s = "" := by
    unfold derivedProjectName
    rw [hd]
    rfl
  refine ⟨hb, ?_⟩
  rw [hb]
  simp [_has_required_scopes, optTruthy]

/-- C7 witness: `codebase_file = "codebase.txt"` derives project `""` and
the scope check passes for a token carrying only an unrelated scope. -/
theorem bare_filename_empty_project_passes_scope_witness :
    derivedProjectName "codebase.txt" = "" ∧
    _has_required_scopes [] {"unrelated:scope"}
      (some (derivedProjectName "codebase.txt")) = true :=
  bare_filename_empty_project_passes_scope "codebase.txt" {"unrelated:scope"}
    (by decide)

/-! ## C8 — enforcement disabled: always anonymous, no scope check -/

/-- C8: when enforcement is disabled, authorization always succeeds with the
anonymous claim set (`sub = "anonymous"`) regardless of whether a credential
is present, malformed, or invalid; `require_project_scope` performs no scope
check, and the MCP endpoint resolves every request's claims to the anonymous
set before dispatch. -/
theorem enforcement_disabled_always_authorized
    (creds : Option Credentials)
    (validate : String → Except String TokenClaims)
    (static : List String) (name : String)
    (fsE : String → Bool) (fC : String → String) (wF : List String)
    (ans : String → String → String → String) (eS : Nat → String → String)
    (req : RpcRequest) (st : String) :
    get_current_token_claims false creds validate = .ok anonymousClaims ∧
    require_project_scope false static name creds validate =
      .ok anonymousClaims ∧
    mcp_endpoint ⟨false, static, fsE, fC, wF, ans, eS⟩ creds validate req st =
      dispatch ⟨false, static, fsE, fC, wF, ans, eS⟩ anonymousClaims req st :=
  ⟨rfl, rfl, rfl⟩

/-! ## C3 — scope-check characterization -/

/-- C3: for a validated token scope set `S` and optional project name `p`,
the scope check accepts exactly when the static required-scope set is
non-empty and a subset of `S`, or `p` is present (truthy) with
`deepview:project:<p>:read` in `S`, or the static set is empty and no
(truthy) project name applies; and whenever the check rejects a validated
token, `require_project_scope` fails 403. -/
theorem has_required_scopes_iff (static : List String) (S : Finset String)
    (p : Option String) :
    (_has_required_scopes static S p = true ↔
      (static ≠ [] ∧ ∀ s ∈ static, s ∈ S) ∨
      (optTruthy p = true ∧ projectScope (p.getD "") ∈ S) ∨
      (static = [] ∧ optTruthy p = false)) ∧
    (∀ (creds : Option Credentials)
        (validate : String → Except String TokenClaims)
        (claims : TokenClaims) (name : String),
      get_current_token_claims true creds validate = .ok claims →
      _has_required_scopes static claims.scopeSet (some name) = false →
      require_project_scope true static name creds validate =
        .error ⟨403, "Insufficient scope for this project"⟩) := by
  constructor
  · unfold _has_required_scopes
    split_ifs with h1 h2
    · simp only [true_iff]
      exact Or.inl h1
    · simp only [true_iff]
      exact Or.inr (Or.inl h2)
    · simp only [decide_eq_true_eq]
      constructor
      · rintro ⟨hne, hnt⟩
        exact Or.inr (Or.inr ⟨hne, by simpa using hnt⟩)
      · rintro (hC | hC | hC)
        · exact absurd hC h1
        · exact absurd hC h2
        · exact ⟨hC.1, by simp [hC.2]⟩
  · intro creds validate claims name hclaims hscopes
    unfold require_project_scope
    rw [hclaims]
    simp [Bind.bind, Except.bind, hscopes]

/-- C3 witness: static scopes `{"read:all"}`, token scopes
`{"other:scope"}`, project `acme`: the check rejects and the middleware
answers 403. -/
theorem has_required_scopes_iff_witness :
    require_project_scope true ["read:all"] "acme" (some ⟨"Bearer", "tok"⟩)
        (fun _ => .ok ⟨"alice", {"other:scope"}⟩) =
      .error ⟨403, "Insufficient scope for this project"⟩ :=
  (has_required_scopes_iff ["read:all"] {"other:scope"} (some "acme")).2
    (some ⟨"Bearer", "tok"⟩) (fun _ => .ok ⟨"alice", {"other:scope"}⟩)
    ⟨"alice", {"other:scope"}⟩ "acme" rfl (by decide)

/-! ## C1 — validation failures leak their cause on the wire -/

/-- C1 counterexample: two different validation failures (an expired token
vs a wrong audience) produce two different wire-level 401 responses, each
embedding the underlying cause text in its `detail` — so the cause is sent
to the caller and the failures are distinguishable, contrary to the claim. -/
theorem auth_failure_detail_distinguishes_cause :
    get_current_token_claims true (some ⟨"Bearer", "tok"⟩)
        (fun _ => .error "Signature has expired") =
      .error ⟨401, "Invalid token: Signature has expired"⟩ ∧
    get_current_token_claims true (some ⟨"Bearer", "tok"⟩)
        (fun _ => .error "Invalid audience") =
      .error ⟨401, "Invalid token: Invalid audience"⟩ ∧
    ("Invalid token: Signature has expired" : String) ≠
      "Invalid token: Invalid audience" :=
  ⟨rfl, rfl, by decide⟩

/-- C1 amended: with enforcement enabled, every token-validation failure is
mapped to the uniform 401 status (no distinguishable status or error code),
but the response `detail` embeds the underlying cause text as
`"Invalid token: <cause>"`; the handler echoes the cause to the caller
rather than logging it server-side. -/
theorem auth_failure_uniform_401_detail_embeds_cause (cause : String)
    (c : Credentials) (h1 : ¬ (c.scheme = "" ∨ c.credentials = ""))
    (h2 : pyLower c.scheme = "bearer") :
    get_current_token_claims true (some c) (fun _ => .error cause) =
      .error ⟨401, "Invalid token: " ++ cause⟩ := by
  unfold get_current_token_claims
  simp [h1, h2]

/-- C1 amended witness: a Bearer credential whose validation fails with a
signature error yields the 401 whose detail carries that cause. -/
theorem auth_failure_uniform_401_detail_embeds_cause_witness :
    get_current_token_claims true (some ⟨"Bearer", "tok"⟩)
        (fun _ => .error "Signature verification failed") =
      .error ⟨401, "Invalid token: Signature verification failed"⟩ :=
  auth_failure_uniform_401_detail_embeds_cause "Signature verification failed"
    ⟨"Bearer", "tok"⟩ (by decide) (by decide)

/-! ## C9 — unknown methods get `-32601` with the inbound id -/

/-- C9: for every request whose method is none of `initialize`,
`notifications/initialized`, `tools/list`, `tools/call`, the dispatcher
returns the JSON-RPC error with code `-32601` (Method not found) carrying
the same request id. -/
theorem unknown_method_returns_32601 (env : Env) (claims : TokenClaims)
    (req : RpcRequest) (st : String)
    (h : req.method ∉ [some "initialize", some "notifications/initialized",
      some "tools/list", some "tools/call"]) :
    dispatch env claims req st =
      (⟨rpcError req.id (-32601) "Method not found"
        ("Unknown method: " ++ pyOptShow req.method), 400⟩, st) := by
  have h1 : req.method ≠ some "initialize" := fun hc => h (by simp [hc])
  have h2 : req.method ≠ some "notifications/initialized" :=
    fun hc => h (by simp [hc])
  have h3 : req.method ≠ some "tools/list" := fun hc => h (by simp [hc])
  have h4 : req.method ≠ some "tools/call" := fun hc => h (by simp [hc])
  unfold dispatch
  rw [if_neg h1, if_neg h2, if_neg h3, if_neg (fun hc => h4 hc.1),
    if_neg (fun hc => h4 hc.1)]

/-- C9 witness: method `tools/frobnicate` with id 5 yields the `-32601`
error echoing id 5, leaving the default corpus untouched. -/
theorem unknown_method_returns_32601_witness :
    dispatch ⟨false, [], fun _ => false, fun _ => "", [], fun _ _ _ => "",
        fun _ _ => ""⟩ anonymousClaims
      ⟨some "tools/frobnicate", none, none, none, .num 5⟩ "corpus" =
      (⟨rpcError (.num 5) (-32601) "Method not found"
        "Unknown method: tools/frobnicate", 400⟩, "corpus") :=
  unknown_method_returns_32601 _ _ _ _ (by decide)

/-! ## C2 — request handling never writes the default-corpus slot -/

/-- C2 counterexample: a `deepview` call that omits `codebase_file` reads
the process-wide default corpus as its corpus and succeeds, but the slot
still holds its prior value afterwards — handling the request performs no
write to the default-corpus slot. -/
theorem deepview_without_codebase_file_does_not_write :
    mcp_endpoint ⟨false, [], fun _ => false, fun _ => "", [],
        fun _ _ _ => "THE ANSWER", fun _ _ => ""⟩ none (fun _ => .error "")
      ⟨some "tools/call", some "deepview", some "why?", none, .num 1⟩
      "OLD CORPUS" =
      (⟨rpcResult (.num 1) (textContent "THE ANSWER"), 200⟩, "OLD CORPUS") :=
  rfl

/-- C2 amended: the only process-wide mutable state is the single
default-corpus slot, and it is set only at startup (command-line or
default-directory load); request handling never writes it — every
per-request load passes `update_global=False`, and a request that omits
`codebase_file` merely reads the slot — so all shared state is unchanged by
every request. -/
theorem mcp_endpoint_preserves_default_corpus (env : Env)
    (creds : Option Credentials)
    (validate : String → Except String TokenClaims)
    (req : RpcRequest) (st : String) :
    (mcp_endpoint env creds validate req st).2 = st := by
  simp only [mcp_endpoint]
  split
  · rfl
  · simp only [dispatch]
    split_ifs <;> rfl

/-! ## C4 — which responses carry the JSON-RPC envelope -/

/-- Envelope shape of every `deepview` tool outcome: either a full JSON-RPC
envelope echoing the request id, or a plain body with neither field. -/
theorem deepviewTool_envelope (env : Env) (claims : TokenClaims)
    (req : RpcRequest) (st : String) :
    ((deepviewTool env claims req st).body.lookup "jsonrpc" =
        some (.str "2.0") ∧
     (deepviewTool env claims req st).body.lookup "id" = some req.id) ∨
    ((deepviewTool env claims req st).body.lookup "jsonrpc" = none ∧
     (deepviewTool env claims req st).body.lookup "id" = none) := by
  simp only [deepviewTool]
  split
  · exact Or.inl ⟨rfl, rfl⟩
  · split_ifs
    · exact Or.inr ⟨rfl, rfl⟩
    · exact Or.inr ⟨rfl, rfl⟩
    · exact Or.inl ⟨rfl, rfl⟩

/-- C4 counterexample: a `tools/call deepview` request with id 7 and no
`question` is answered by the plain body `{"error": "Question is required"}`
with status 400 — an error response that carries neither the `jsonrpc`
field nor the echoed `id`, so not every response includes them. -/
theorem missing_question_response_lacks_envelope :
    (mcp_endpoint ⟨false, [], fun _ => false, fun _ => "", [],
        fun _ _ _ => "", fun _ _ => ""⟩ none (fun _ => .error "")
      ⟨some "tools/call", some "deepview", none, none, .num 7⟩ "c").1 =
      ⟨.obj [("error", .str "Question is required")], 400⟩ ∧
    (mcp_endpoint ⟨false, [], fun _ => false, fun _ => "", [],
        fun _ _ _ => "", fun _ _ => ""⟩ none (fun _ => .error "")
      ⟨some "tools/call", some "deepview", none, none,
        .num 7⟩ "c").1.body.lookup "jsonrpc" = none ∧
    (mcp_endpoint ⟨false, [], fun _ => false, fun _ => "", [],
        fun _ _ _ => "", fun _ _ => ""⟩ none (fun _ => .error "")
      ⟨some "tools/call", some "deepview", none, none,
        .num 7⟩ "c").1.body.lookup "id" = none :=
  ⟨rfl, rfl, rfl⟩

/-- C4 amended: every response of the JSON-RPC endpoint either carries the
full envelope — `jsonrpc: "2.0"` together with the request's id echoed
exactly as received (`null` standing for an absent id) — or is a plain
application-level body carrying neither field.  Envelopes cover
`initialize`, `tools/list`, tool results and the `-32603`/`-32601` errors;
plain bodies cover the `notifications/initialized` acknowledgment, the
400/403/404 tool-argument failures, and the top-level exception handler. -/
theorem mcp_endpoint_envelope_all_or_nothing (env : Env)
    (creds : Option Credentials)
    (validate : String → Except String TokenClaims)
    (req : RpcRequest) (st : String) :
    (((mcp_endpoint env creds validate req st).1.body.lookup "jsonrpc" =
        some (.str "2.0") ∧
      (mcp_endpoint env creds validate req st).1.body.lookup "id" =
        some req.id) ∨
     ((mcp_endpoint env creds validate req st).1.body.lookup "jsonrpc" =
        none ∧
      (mcp_endpoint env creds validate req st).1.body.lookup "id" =
        none)) := by
  simp only [mcp_endpoint]
  split
  · exact Or.inr ⟨rfl, rfl⟩
  · rename_i claims _
    simp only [dispatch]
    split_ifs <;>
      first
      | exact Or.inl ⟨rfl, rfl⟩
      | exact Or.inr ⟨rfl, rfl⟩
      | exact deepviewTool_envelope env claims req st

/-! ## C6 — discovery `authorization` tracks the issuer, not enforcement -/

/-- Normalizing a non-empty issuer never yields the empty string. -/
theorem ensureTrailingSlash_ne_empty (x : String) (hx : x ≠ "") :
    ensureTrailingSlash x ≠ "" := by
  unfold ensureTrailingSlash
  split_ifs
  · exact hx
  · intro hcon
    have hlen := congrArg String.length hcon
    rw [String.length_append] at hlen
    have h1 : ("/" : String).length = 1 := rfl
    have h0 : ("" : String).length = 0 := rfl
    rw [h1, h0] at hlen
    omega

/-- C6 counterexample: with OAuth enforcement disabled but `OIDC_ISSUER`
configured — a configuration startup accepts unchanged — the discovery
document still carries a non-null `authorization` object; its presence
therefore does not coincide with enforcement being enabled. -/
theorem discovery_authorization_without_enforcement :
    startupOAuthSettings ⟨false, some "https://idp.example.com/", some "aud"⟩ =
      .ok ⟨false, some "https://idp.example.com/", some "aud"⟩ ∧
    (mcp_discovery (some "https://idp.example.com/") (some "aud") []
        "https://svc.example.com").lookup "authorization" ≠ some Json.null :=
  ⟨rfl, fun h => Json.noConfusion (Option.some.inj h)⟩

/-- C6 amended: the `authorization` member of `/.well-known/mcp.json` is
non-null exactly when `OIDC_ISSUER` is configured (truthy) — not exactly
when OAuth enforcement is enabled.  Since startup refuses enforcement
without an issuer, enforcement-enabled deployments always carry the object,
but a disabled deployment with an issuer configured carries it too.  When
present it contains `type "oauth2"`, the slash-normalized issuer, the
`authorize` and `oauth/token` endpoints derived from the issuer, the
audience, and the sorted configured static scope list. -/
theorem discovery_authorization_iff_issuer (iss aud : Option String)
    (scopes : List String) (base : String) :
    ((mcp_discovery iss aud scopes base).lookup "authorization" =
        some Json.null ↔ optTruthy iss = false) ∧
    (optTruthy iss = true →
      (mcp_discovery iss aud scopes base).lookup "authorization" =
        some (.obj [("type", .str "oauth2"),
          ("issuer", .str (ensureTrailingSlash (iss.getD ""))),
          ("authorization_endpoint",
            .str (ensureTrailingSlash (iss.getD "") ++ "authorize")),
          ("token_endpoint",
            .str (ensureTrailingSlash (iss.getD "") ++ "oauth/token")),
          ("audience", match aud with | some a => .str a | none => .null),
          ("scopes", .arr (if scopes ≠ [] then
            (insertionSort scopes).map .str else []))])) ∧
    (∀ s s' : OAuthSettings, startupOAuthSettings s = .ok s' →
      s.oauthEnabled = true → optTruthy s'.oidcIssuer = true) := by
  have hlook : (mcp_discovery iss aud scopes base).lookup "authorization" =
      some (discoveryAuthorization iss aud scopes) := rfl
  refine ⟨?_, ?_, ?_⟩
  · rw [hlook]
    unfold discoveryAuthorization
    cases hT : optTruthy iss
    · simp [hT]
    · simp [hT]
  · intro hT
    rw [hlook]
    unfold discoveryAuthorization
    simp [hT]
  · intro s s' hok hen
    unfold startupOAuthSettings at hok
    rw [hen] at hok
    simp only [if_true] at hok
    split_ifs at hok with hguard
    push_neg at hguard
    obtain ⟨hiss, -⟩ := hguard
    cases hok
    show optTruthy (some (ensureTrailingSlash (s.oidcIssuer.getD ""))) = true
    cases hi : s.oidcIssuer with
    | none =>
      rw [hi] at hiss
      simp [optTruthy] at hiss
    | some y =>
      have hy : y ≠ "" := by
        rw [hi] at hiss
        simpa [optTruthy] using hiss
      simpa [optTruthy] using ensureTrailingSlash_ne_empty y hy

/-- C6 witness: issuer `https://idp.example.com` (no trailing slash),
audience `aud`, static scopes `["read:all"]`: the document advertises the
oauth2 object with the normalized issuer and derived endpoints; and the
enforcement-enabled startup configuration normalizes to a truthy issuer. -/
theorem discovery_authorization_iff_issuer_witness :
    (mcp_discovery (some "https://idp.example.com") (some "aud")
        ["read:all"] "https://svc").lookup "authorization" =
      some (.obj [("type", .str "oauth2"),
        ("issuer", .str "https://idp.example.com/"),
        ("authorization_endpoint", .str "https://idp.example.com/authorize"),
        ("token_endpoint", .str "https://idp.example.com/oauth/token"),
        ("audience", .str "aud"),
        ("scopes", .arr [.str "read:all"])]) ∧
    optTruthy (⟨true, some "https://idp.example.com/",
      some "aud"⟩ : OAuthSettings).oidcIssuer = true :=
  ⟨(discovery_authorization_iff_issuer (some "https://idp.example.com")
      (some "aud") ["read:all"] "https://svc").2.1 (by decide),
   (discovery_authorization_iff_issuer (some "https://idp.example.com")
      (some "aud") ["read:all"] "https://svc").2.2
      ⟨true, some "https://idp.example.com", some "aud"⟩
      ⟨true, some "https://idp.example.com/", some "aud"⟩ rfl rfl⟩

end DeepView
